import Mathlib

/-!
Verification of the pynml typed entity–relation framework and its
tree-serialization algorithm (files `nml.py` and `manager.py`).

The Python classes are shallowly embedded: every mutable object is an explicit
state record, every method that can mutate or raise becomes a function
`State → Args → State × Option NMLError` (raising before any assignment is
modelled by returning the entry state together with the error), `OrderedDict`
storage becomes an insertion-ordered association list with Python's
upsert-in-place assignment semantics, and the `unset` sentinel becomes an
explicit constructor of `AttrValue`.  Related objects are recorded as `Ref`
projections: Python object identity (`oid`), the concrete class (`kind`) and
the `identifier` string, which is everything the relation operations and the
serializer read from a related object.
-/

/-- The URI registered for the `nml` XML namespace in `nml.py` (`NAMESPACES`). -/
def nmlNamespaceUri : String := "http://schemas.ogf.org/nml/2013/05/base"

/-- A scalar attribute value: either the unique `unset` sentinel object of
`nml.py` or an actual string value. -/
inductive AttrValue
  | unset
  | val (s : String)
  deriving DecidableEq, Repr

/-- Rendering of an attribute value by Python's string formatting, used in the
duplicate-registration message of `NMLManager.register_object`. -/
def AttrValue.text : AttrValue → String
  | .unset => "Unset"
  | .val s => s

/-- The concrete NML classes of `nml.py`, plus the abstract `NetworkObject`
class which appears in the allowed-class tuple of the `isAlias` relation. -/
inductive Kind
  | networkObject
  | node
  | port
  | portGroup
  | link
  | linkGroup
  | switchingService
  | adaptationService
  | deAdaptationService
  | topology
  | environment
  | location
  | lifetime
  | label
  | labelGroup
  | bidirectionalPort
  | bidirectionalLink
  | orderedList
  | listItem
  deriving DecidableEq, Repr

/-- Python class name of each kind (`self.__class__.__name__`). -/
def Kind.className : Kind → String
  | .networkObject => "NetworkObject"
  | .node => "Node"
  | .port => "Port"
  | .portGroup => "PortGroup"
  | .link => "Link"
  | .linkGroup => "LinkGroup"
  | .switchingService => "SwitchingService"
  | .adaptationService => "AdaptationService"
  | .deAdaptationService => "DeAdaptationService"
  | .topology => "Topology"
  | .environment => "Environment"
  | .location => "Location"
  | .lifetime => "Lifetime"
  | .label => "Label"
  | .labelGroup => "LabelGroup"
  | .bidirectionalPort => "BidirectionalPort"
  | .bidirectionalLink => "BidirectionalLink"
  | .orderedList => "OrderedList"
  | .listItem => "ListItem"

/-- Projection of a related Python object: its object identity (`id(obj)`),
its concrete class, and its `identifier` attribute.  These are the only parts
of a related object that the relation operations and the serializer read. -/
structure Ref where
  oid : Nat
  kind : Kind
  identifier : String
  deriving DecidableEq, Repr

/-- Errors raised by the embedded code.  The named constructors correspond to
the exception classes of `exceptions.py`; `exceptionMsg` corresponds to a
plain `Exception(message)` raise (used by `set_has_port` / `set_has_link` for
non-unique arguments and by `NMLManager.register_object` for duplicates). -/
inductive NMLError
  | relationExistsDuringError
  | relationIsAliasError
  | relationLocatedAtError
  | relationHasInboundPortError
  | relationHasOutboundPortError
  | relationHasServiceError
  | relationImplementedByError
  | relationHasLabelError
  | relationIsSinkError
  | relationIsSourceError
  | relationHasPortError
  | relationHasLinkError
  | attributeNameError
  | attributeIdError
  | attributeEncodingError
  | exceptionMsg (msg : String)
  deriving DecidableEq, Repr

/-- Insertion-ordered association list standing for Python's `OrderedDict`
assignment `m[k] = v`: an existing key keeps its position and only the value
is replaced; a new key is appended at the end. -/
def odSet {κ ν : Type} [DecidableEq κ] (m : List (κ × ν)) (k : κ) (v : ν) :
    List (κ × ν) :=
  if m.any (fun p => decide (p.1 = k)) then
    m.map (fun p => if p.1 = k then (k, v) else p)
  else
    m ++ [(k, v)]

/-- Python's `k in m` membership test on an `OrderedDict`. -/
def odContains {κ ν : Type} [DecidableEq κ] (m : List (κ × ν)) (k : κ) : Bool :=
  m.any (fun p => decide (p.1 = k))

theorem odSet_of_fresh {κ ν : Type} [DecidableEq κ]
    (m : List (κ × ν)) (k : κ) (v : ν) (h : odContains m k = false) :
    odSet m k v = m ++ [(k, v)] := by
  unfold odSet
  unfold odContains at h
  simp [h]

theorem odContains_append_self {κ ν : Type} [DecidableEq κ]
    (m : List (κ × ν)) (k : κ) (v : ν) :
    odContains (m ++ [(k, v)]) k = true := by
  unfold odContains
  simp

theorem map_congr_id {α : Type} (l : List α) (f : α → α)
    (h : ∀ a ∈ l, f a = a) : l.map f = l := by
  induction l with
  | nil => rfl
  | cons x xs ih =>
      simp only [List.map_cons]
      rw [h x (by simp), ih (fun a ha => h a (by simp [ha]))]

theorem odSet_append_replace {κ ν : Type} [DecidableEq κ]
    (m : List (κ × ν)) (k : κ) (a b : ν) (h : odContains m k = false) :
    odSet (m ++ [(k, a)]) k b = m ++ [(k, b)] := by
  unfold odSet
  rw [if_pos]
  · rw [List.map_append]
    congr 1
    · apply map_congr_id
      intro p hp
      have hk : ¬ p.1 = k := by
        unfold odContains at h
        simp only [List.any_eq_false, decide_eq_true_eq] at h
        exact h p hp
      simp [hk]
    · simp
  · simp

/-- State of the abstract `NetworkObject` base (`nml.py`, `NetworkObject`):
the three Identity attributes and the storage of its three relations
(`_exists_during_lifetimes`, `_is_alias_network_objects`,
`_located_at_locations`).  The `locatedAt` storage is the 1-tuple
`(None, )` / `(location, )`, modelled as an `Option`. -/
structure NetworkObjectCore where
  name : AttrValue
  identifier : AttrValue
  version : AttrValue
  exists_during_lifetimes : List (String × Ref)
  is_alias_network_objects : List (String × Ref)
  located_at_locations : Option Ref
  deriving DecidableEq, Repr

/-- The state of a `NetworkObject` right after `NetworkObject.__init__`:
`name`, `identifier` and `version` hold the given (or synthesized) strings
and the three relation storages are empty / `(None, )`. -/
def NetworkObjectCore.fresh (name identifier version : String) :
    NetworkObjectCore :=
  { name := .val name
  , identifier := .val identifier
  , version := .val version
  , exists_during_lifetimes := []
  , is_alias_network_objects := []
  , located_at_locations := none }

/-- The `name` property setter: `if name is not unset and not name: raise
AttributeNameError()` followed by the assignment (`not name` on a string is
emptiness). -/
def NetworkObject.set_name (s : NetworkObjectCore) (name : AttrValue) :
    NetworkObjectCore × Option NMLError :=
  match name with
  | .unset => ({ s with name := .unset }, none)
  | .val n =>
      if n = "" then (s, some .attributeNameError)
      else ({ s with name := .val n }, none)

/-- The `identifier` property setter: `if identifier is not unset and not
is_valid_uri(identifier): raise AttributeIdError()` followed by the
assignment.  `is_valid_uri` comes from the external `rfc3986` library, so the
validator is a parameter of the embedding. -/
def NetworkObject.set_identifier (is_valid_uri : String → Bool)
    (s : NetworkObjectCore) (identifier : AttrValue) :
    NetworkObjectCore × Option NMLError :=
  match identifier with
  | .unset => ({ s with identifier := .unset }, none)
  | .val u =>
      if is_valid_uri u then ({ s with identifier := .val u }, none)
      else (s, some .attributeIdError)

/-- The `version` property setter: stores unconditionally. -/
def NetworkObject.set_version (s : NetworkObjectCore) (version : AttrValue) :
    NetworkObjectCore × Option NMLError :=
  ({ s with version := version }, none)

/-- `NetworkObject.add_exists_during`: class check against `(Lifetime, )`,
then `OrderedDict` upsert keyed by `lifetime.identifier`. -/
def NetworkObject.add_exists_during (s : NetworkObjectCore) (lifetime : Ref) :
    NetworkObjectCore × Option NMLError :=
  if lifetime.kind ∉ [Kind.lifetime] then
    (s, some .relationExistsDuringError)
  else
    ({ s with exists_during_lifetimes :=
        (odSet s.exists_during_lifetimes lifetime.identifier lifetime) }, none)

/-- `NetworkObject.add_is_alias`: class check against the tuple
`(NetworkObject, )` — the abstract base class itself — then `OrderedDict`
upsert keyed by `network_object.identifier`. -/
def NetworkObject.add_is_alias (s : NetworkObjectCore) (network_object : Ref) :
    NetworkObjectCore × Option NMLError :=
  if network_object.kind ∉ [Kind.networkObject] then
    (s, some .relationIsAliasError)
  else
    ({ s with is_alias_network_objects :=
        (odSet s.is_alias_network_objects network_object.identifier
          network_object) }, none)

/-- `NetworkObject.set_located_at`: class check against `(Location, )`, then
replacement of the whole 1-tuple slot. -/
def NetworkObject.set_located_at (s : NetworkObjectCore) (location : Ref) :
    NetworkObjectCore × Option NMLError :=
  if location.kind ∉ [Kind.location] then
    (s, some .relationLocatedAtError)
  else
    ({ s with located_at_locations := some location }, none)

/-- `NetworkObject.get_exists_during`: returns a copy of the storage and
leaves the object untouched. -/
def NetworkObject.get_exists_during (s : NetworkObjectCore) :
    NetworkObjectCore × List (String × Ref) :=
  (s, s.exists_during_lifetimes)

/-- `NetworkObject.get_is_alias`: returns a copy of the storage. -/
def NetworkObject.get_is_alias (s : NetworkObjectCore) :
    NetworkObjectCore × List (String × Ref) :=
  (s, s.is_alias_network_objects)

/-- `NetworkObject.get_located_at`: returns a copy of the 1-tuple slot. -/
def NetworkObject.get_located_at (s : NetworkObjectCore) :
    NetworkObjectCore × Option Ref :=
  (s, s.located_at_locations)

/-- State of a `Node` (`nml.py`, class `Node`): the inherited
`NetworkObject` state plus the storage of its four own relations, in the
order `Node.__init__` declares them after calling `super().__init__`. -/
structure NodeState where
  core : NetworkObjectCore
  has_inbound_port_ports : List (String × Ref)
  has_outbound_port_ports : List (String × Ref)
  has_service_switching_services : List (String × Ref)
  implemented_by_nodes : List (String × Ref)
  deriving DecidableEq, Repr

/-- A `Node` right after `Node.__init__`: fresh core, all four own relation
storages empty. -/
def Node.fresh (name identifier version : String) : NodeState :=
  { core := NetworkObjectCore.fresh name identifier version
  , has_inbound_port_ports := []
  , has_outbound_port_ports := []
  , has_service_switching_services := []
  , implemented_by_nodes := [] }

/-- `Node.add_has_inbound_port`: class check against `(Port, PortGroup, )`,
then `OrderedDict` upsert keyed by `port.identifier`. -/
def Node.add_has_inbound_port (s : NodeState) (port : Ref) :
    NodeState × Option NMLError :=
  if port.kind ∉ [Kind.port, Kind.portGroup] then
    (s, some .relationHasInboundPortError)
  else
    ({ s with has_inbound_port_ports :=
        (odSet s.has_inbound_port_ports port.identifier port) }, none)

/-- `Node.add_has_outbound_port`: class check against `(Port, PortGroup, )`,
then `OrderedDict` upsert keyed by `port.identifier`. -/
def Node.add_has_outbound_port (s : NodeState) (port : Ref) :
    NodeState × Option NMLError :=
  if port.kind ∉ [Kind.port, Kind.portGroup] then
    (s, some .relationHasOutboundPortError)
  else
    ({ s with has_outbound_port_ports :=
        (odSet s.has_outbound_port_ports port.identifier port) }, none)

/-- `Node.add_has_service`: class check against `(SwitchingService, )`. -/
def Node.add_has_service (s : NodeState) (switching_service : Ref) :
    NodeState × Option NMLError :=
  if switching_service.kind ∉ [Kind.switchingService] then
    (s, some .relationHasServiceError)
  else
    ({ s with has_service_switching_services :=
        (odSet s.has_service_switching_services switching_service.identifier
          switching_service) }, none)

/-- `Node.add_implemented_by`: class check against `(Node, )`. -/
def Node.add_implemented_by (s : NodeState) (node : Ref) :
    NodeState × Option NMLError :=
  if node.kind ∉ [Kind.node] then
    (s, some .relationImplementedByError)
  else
    ({ s with implemented_by_nodes :=
        (odSet s.implemented_by_nodes node.identifier node) }, none)

/-- `Node.get_has_inbound_port`: returns a copy of the storage. -/
def Node.get_has_inbound_port (s : NodeState) :
    NodeState × List (String × Ref) :=
  (s, s.has_inbound_port_ports)

/-- `Node.get_has_outbound_port`: returns a copy of the storage. -/
def Node.get_has_outbound_port (s : NodeState) :
    NodeState × List (String × Ref) :=
  (s, s.has_outbound_port_ports)

/-- `Node.get_has_service`: returns a copy of the storage. -/
def Node.get_has_service (s : NodeState) :
    NodeState × List (String × Ref) :=
  (s, s.has_service_switching_services)

/-- `Node.get_implemented_by`: returns a copy of the storage. -/
def Node.get_implemented_by (s : NodeState) :
    NodeState × List (String × Ref) :=
  (s, s.implemented_by_nodes)

/-- State of a `Port` (`nml.py`, class `Port`): the inherited state, the
`encoding` attribute, the singleton `hasLabel` slot (the 1-tuple `(None, )`)
and the three unbounded relation storages. -/
structure PortState where
  core : NetworkObjectCore
  encoding : AttrValue
  has_label_labels : Option Ref
  has_service_adaptation_services : List (String × Ref)
  is_sink_links : List (String × Ref)
  is_source_links : List (String × Ref)
  deriving DecidableEq, Repr

/-- A `Port` right after `Port.__init__` with no `encoding` argument:
`encoding = None` is replaced by the `unset` sentinel; relation storages are
empty / `(None, )`. -/
def Port.fresh (name identifier version : String) : PortState :=
  { core := NetworkObjectCore.fresh name identifier version
  , encoding := .unset
  , has_label_labels := none
  , has_service_adaptation_services := []
  , is_sink_links := []
  , is_source_links := [] }

/-- The `Port.encoding` property setter: `if encoding is not unset and not
is_valid_uri(encoding): raise AttributeEncodingError()` then assignment. -/
def Port.set_encoding (is_valid_uri : String → Bool) (s : PortState)
    (encoding : AttrValue) : PortState × Option NMLError :=
  match encoding with
  | .unset => ({ s with encoding := .unset }, none)
  | .val u =>
      if is_valid_uri u then ({ s with encoding := .val u }, none)
      else (s, some .attributeEncodingError)

/-- `Port.set_has_label`: class check against `(Label, )`, then replacement
of the whole 1-tuple slot. -/
def Port.set_has_label (s : PortState) (label : Ref) :
    PortState × Option NMLError :=
  if label.kind ∉ [Kind.label] then
    (s, some .relationHasLabelError)
  else
    ({ s with has_label_labels := some label }, none)

/-- `Port.add_is_sink`: class check against `(Link, )`. -/
def Port.add_is_sink (s : PortState) (link : Ref) :
    PortState × Option NMLError :=
  if link.kind ∉ [Kind.link] then
    (s, some .relationIsSinkError)
  else
    ({ s with is_sink_links :=
        (odSet s.is_sink_links link.identifier link) }, none)

/-- `Port.add_is_source`: class check against `(Link, )`. -/
def Port.add_is_source (s : PortState) (link : Ref) :
    PortState × Option NMLError :=
  if link.kind ∉ [Kind.link] then
    (s, some .relationIsSourceError)
  else
    ({ s with is_source_links :=
        (odSet s.is_source_links link.identifier link) }, none)

/-- State of a `Link` (`nml.py`, class `Link`). -/
structure LinkState where
  core : NetworkObjectCore
  encoding : AttrValue
  has_label_labels : Option Ref
  deriving DecidableEq, Repr

/-- A `Link` right after `Link.__init__` with no `encoding` argument. -/
def Link.fresh (name identifier version : String) : LinkState :=
  { core := NetworkObjectCore.fresh name identifier version
  , encoding := .unset
  , has_label_labels := none }

/-- State of a `BidirectionalPort` (`nml.py`, class `BidirectionalPort`):
the inherited state and the fixed-2 `hasPort` slot, a 2-tuple whose never-set
value is `(None, None, )`. -/
structure BidirectionalPortState where
  core : NetworkObjectCore
  has_port_ports : Option Ref × Option Ref
  deriving DecidableEq, Repr

/-- A `BidirectionalPort` right after its `__init__`: the `hasPort` slot is
`(None, None, )`. -/
def BidirectionalPort.fresh (name identifier version : String) :
    BidirectionalPortState :=
  { core := NetworkObjectCore.fresh name identifier version
  , has_port_ports := (none, none) }

/-- `BidirectionalPort.set_has_port`: class check of both arguments against
`(Port, PortGroup, )`, then the distinctness check
`len(set(arg_tuple)) != len(arg_tuple)` — Python object identity, i.e. equal
`oid` — raising the plain `Exception('Non unique objects')`; only then the
whole 2-tuple slot is replaced. -/
def BidirectionalPort.set_has_port (s : BidirectionalPortState)
    (port1 port2 : Ref) : BidirectionalPortState × Option NMLError :=
  if port1.kind ∉ [Kind.port, Kind.portGroup] then
    (s, some .relationHasPortError)
  else if port2.kind ∉ [Kind.port, Kind.portGroup] then
    (s, some .relationHasPortError)
  else if port1.oid = port2.oid then
    (s, some (.exceptionMsg "Non unique objects"))
  else
    ({ s with has_port_ports := (some port1, some port2) }, none)

/-- State of a `BidirectionalLink` (`nml.py`, class `BidirectionalLink`). -/
structure BidirectionalLinkState where
  core : NetworkObjectCore
  has_link_links : Option Ref × Option Ref
  deriving DecidableEq, Repr

/-- A `BidirectionalLink` right after its `__init__`: the `hasLink` slot is
`(None, None, )`. -/
def BidirectionalLink.fresh (name identifier version : String) :
    BidirectionalLinkState :=
  { core := NetworkObjectCore.fresh name identifier version
  , has_link_links := (none, none) }

/-- `BidirectionalLink.set_has_link`: class check of both arguments against
`(Link, LinkGroup, )`, then the identity-based distinctness check raising
`Exception('Non unique objects')`, then replacement of the whole slot. -/
def BidirectionalLink.set_has_link (s : BidirectionalLinkState)
    (link1 link2 : Ref) : BidirectionalLinkState × Option NMLError :=
  if link1.kind ∉ [Kind.link, Kind.linkGroup] then
    (s, some .relationHasLinkError)
  else if link2.kind ∉ [Kind.link, Kind.linkGroup] then
    (s, some .relationHasLinkError)
  else if link1.oid = link2.oid then
    (s, some (.exceptionMsg "Non unique objects"))
  else
    ({ s with has_link_links := (some link1, some link2) }, none)

/-- An XML element as built by `as_nml` with `xml.etree.ElementTree`: tag,
insertion-ordered attribute map, and the list of sub-elements in creation
order. -/
inductive XElem
  | elem (tag : String) (attrib : List (String × String)) (children : List XElem)

/-- Tag of an element. -/
def XElem.tag : XElem → String
  | .elem t _ _ => t

/-- Attribute map of an element. -/
def XElem.attrib : XElem → List (String × String)
  | .elem _ a _ => a

/-- Sub-elements of an element. -/
def XElem.children : XElem → List XElem
  | .elem _ _ c => c

/-- Value of the `type` attribute of an element (used on the `Relation`
wrapper elements emitted by `as_nml`). -/
def XElem.typeAttr (x : XElem) : Option String :=
  (x.attrib.find? (fun p => decide (p.1 = "type"))).map Prod.snd

/-- What `as_nml` reads from one object, in declaration order: the class
name, the current value of each attribute in `self.attributes`, and for each
entry of `self.relations` the snapshot its getter returns.  A snapshot is a
list of possibly-null entries: `OrderedDict.values()` for unbounded
relations (never null), and the tuple slots for singleton / fixed-N
relations (null when never set). -/
structure EntityView where
  className : String
  attributes : List (String × AttrValue)
  relations : List (String × List (Option Ref))

/-- Snapshot of an unbounded relation: `OrderedDict.values()`. -/
def unboundedSnapshot (m : List (String × Ref)) : List (Option Ref) :=
  m.map (fun p => some p.2)

/-- The `not associated or not all(associated)` skip condition of `as_nml`,
as the positive condition for emitting a `Relation` element: the snapshot is
non-empty and contains no null placeholder. -/
def relationEmitted (snap : List (Option Ref)) : Bool :=
  !snap.isEmpty && snap.all (fun o => o.isSome)

/-- The reference sub-element built for one related object:
`etree.SubElement(relation, associated.__class__.__name__,
id=associated.identifier)`. -/
def refElement (r : Ref) : XElem :=
  .elem r.kind.className [("id", r.identifier)] []

/-- The `Relation` wrapper element for one relation:
`etree.SubElement(this, 'Relation', type='{ns}#{relname}')` and one
reference child per (non-null) related object, in snapshot order. -/
def relationElement (relname : String) (snap : List (Option Ref)) : XElem :=
  .elem "Relation" [("type", nmlNamespaceUri ++ "#" ++ relname)]
    (snap.filterMap (fun o => o.map refElement))

/-- The `Relation` elements emitted for a list of declared relations, in
declaration order, skipping snapshots that are empty or hold a null
placeholder. -/
def emitRelations (rs : List (String × List (Option Ref))) : List XElem :=
  rs.filterMap (fun p =>
    if relationEmitted p.2 then some (relationElement p.1 p.2) else none)

/-- `NMLObject.as_nml` on a root node: creates the element
`'nml:' + self.__class__.__name__`, sets one element attribute per declared
attribute whose value `is not unset` — under the attribute's internal name
`attr_name`, `this.attrib[attr_name] = attr` — and then emits the `Relation`
sub-elements in relation declaration order. -/
def asNmlView (v : EntityView) : XElem :=
  .elem ("nml:" ++ v.className)
    (v.attributes.filterMap (fun p =>
      match p.2 with
      | .unset => none
      | .val s => some (p.1, s)))
    (emitRelations v.relations)

/-- Attribute list of a `NetworkObject` in declaration order
(`self.attributes` after `NetworkObject.__init__`), paired with the current
values read back by `getattr`. -/
def coreAttributes (c : NetworkObjectCore) : List (String × AttrValue) :=
  [("name", c.name), ("identifier", c.identifier), ("version", c.version)]

/-- Relation snapshots of the `NetworkObject` base in declaration order:
`existsDuring`, `isAlias`, `locatedAt` — these are inserted into
`self.relations` by `NetworkObject.__init__`, i.e. before any relation a
subclass declares. -/
def coreRelations (c : NetworkObjectCore) : List (String × List (Option Ref)) :=
  [ ("existsDuring", unboundedSnapshot c.exists_during_lifetimes)
  , ("isAlias", unboundedSnapshot c.is_alias_network_objects)
  , ("locatedAt", [c.located_at_locations]) ]

/-- Relation snapshots declared by `Node.__init__` itself, in declaration
order. -/
def Node.ownRelations (s : NodeState) : List (String × List (Option Ref)) :=
  [ ("hasInboundPort", unboundedSnapshot s.has_inbound_port_ports)
  , ("hasOutboundPort", unboundedSnapshot s.has_outbound_port_ports)
  , ("hasService", unboundedSnapshot s.has_service_switching_services)
  , ("implementedBy", unboundedSnapshot s.implemented_by_nodes) ]

/-- What `as_nml` reads from a `Node`.  `Node.__init__` calls
`super().__init__` first, so the three base relations sit before the four
`Node` relations in the `OrderedDict` `self.relations`. -/
def Node.view (s : NodeState) : EntityView :=
  { className := "Node"
  , attributes := coreAttributes s.core
  , relations := coreRelations s.core ++ Node.ownRelations s }

/-- `as_nml` on a `Node`. -/
def Node.as_nml (s : NodeState) : XElem :=
  asNmlView (Node.view s)

/-- What `as_nml` reads from a `Port`. -/
def Port.view (s : PortState) : EntityView :=
  { className := "Port"
  , attributes := coreAttributes s.core ++ [("encoding", s.encoding)]
  , relations := coreRelations s.core ++
      [ ("hasLabel", [s.has_label_labels])
      , ("hasService", unboundedSnapshot s.has_service_adaptation_services)
      , ("isSink", unboundedSnapshot s.is_sink_links)
      , ("isSource", unboundedSnapshot s.is_source_links) ] }

/-- `as_nml` on a `Port`. -/
def Port.as_nml (s : PortState) : XElem :=
  asNmlView (Port.view s)

/-- What `as_nml` reads from a `Link`. -/
def Link.view (s : LinkState) : EntityView :=
  { className := "Link"
  , attributes := coreAttributes s.core ++ [("encoding", s.encoding)]
  , relations := coreRelations s.core ++ [("hasLabel", [s.has_label_labels])] }

/-- `as_nml` on a `Link`. -/
def Link.as_nml (s : LinkState) : XElem :=
  asNmlView (Link.view s)

/-- What `as_nml` reads from a `BidirectionalPort`.  Its `__init__`
re-assigns `self.relations['existsDuring']`, which keeps the original
position in the `OrderedDict`, and appends `hasPort`. -/
def BidirectionalPort.view (s : BidirectionalPortState) : EntityView :=
  { className := "BidirectionalPort"
  , attributes := coreAttributes s.core
  , relations := coreRelations s.core ++
      [("hasPort", [s.has_port_ports.1, s.has_port_ports.2])] }

/-- `as_nml` on a `BidirectionalPort`. -/
def BidirectionalPort.as_nml (s : BidirectionalPortState) : XElem :=
  asNmlView (BidirectionalPort.view s)

/-- What `as_nml` reads from a `BidirectionalLink`. -/
def BidirectionalLink.view (s : BidirectionalLinkState) : EntityView :=
  { className := "BidirectionalLink"
  , attributes := coreAttributes s.core
  , relations := coreRelations s.core ++
      [("hasLink", [s.has_link_links.1, s.has_link_links.2])] }

/-- `as_nml` on a `BidirectionalLink`. -/
def BidirectionalLink.as_nml (s : BidirectionalLinkState) : XElem :=
  asNmlView (BidirectionalLink.view s)

/-- Explicit state-passing run of `as_nml` on a `Node`: every read the method
performs — the relation getters, which return copies, and the attribute
reads — is threaded through the state, so that the returned state records
exactly what the method call did to the object. -/
def Node.as_nml_run (s : NodeState) : NodeState × XElem :=
  let (c1, exists_during_snap) := NetworkObject.get_exists_during s.core
  let (c2, is_alias_snap) := NetworkObject.get_is_alias c1
  let (c3, located_at_snap) := NetworkObject.get_located_at c2
  let s1 : NodeState := { s with core := c3 }
  let (s2, inbound_snap) := Node.get_has_inbound_port s1
  let (s3, outbound_snap) := Node.get_has_outbound_port s2
  let (s4, service_snap) := Node.get_has_service s3
  let (s5, implemented_snap) := Node.get_implemented_by s4
  (s5, asNmlView
    { className := "Node"
    , attributes := coreAttributes s5.core
    , relations :=
        [ ("existsDuring", unboundedSnapshot exists_during_snap)
        , ("isAlias", unboundedSnapshot is_alias_snap)
        , ("locatedAt", [located_at_snap])
        , ("hasInboundPort", unboundedSnapshot inbound_snap)
        , ("hasOutboundPort", unboundedSnapshot outbound_snap)
        , ("hasService", unboundedSnapshot service_snap)
        , ("implementedBy", unboundedSnapshot implemented_snap) ] })

/-- Explicit state-passing run of `as_nml` on a `Port`. -/
def Port.as_nml_run (s : PortState) : PortState × XElem :=
  let (c1, exists_during_snap) := NetworkObject.get_exists_during s.core
  let (c2, is_alias_snap) := NetworkObject.get_is_alias c1
  let (c3, located_at_snap) := NetworkObject.get_located_at c2
  let s1 : PortState := { s with core := c3 }
  (s1, asNmlView
    { className := "Port"
    , attributes := coreAttributes s1.core ++ [("encoding", s1.encoding)]
    , relations :=
        [ ("existsDuring", unboundedSnapshot exists_during_snap)
        , ("isAlias", unboundedSnapshot is_alias_snap)
        , ("locatedAt", [located_at_snap])
        , ("hasLabel", [s1.has_label_labels])
        , ("hasService", unboundedSnapshot s1.has_service_adaptation_services)
        , ("isSink", unboundedSnapshot s1.is_sink_links)
        , ("isSource", unboundedSnapshot s1.is_source_links) ] })

/-- Explicit state-passing run of `as_nml` on a `Link`. -/
def Link.as_nml_run (s : LinkState) : LinkState × XElem :=
  let (c1, exists_during_snap) := NetworkObject.get_exists_during s.core
  let (c2, is_alias_snap) := NetworkObject.get_is_alias c1
  let (c3, located_at_snap) := NetworkObject.get_located_at c2
  let s1 : LinkState := { s with core := c3 }
  (s1, asNmlView
    { className := "Link"
    , attributes := coreAttributes s1.core ++ [("encoding", s1.encoding)]
    , relations :=
        [ ("existsDuring", unboundedSnapshot exists_during_snap)
        , ("isAlias", unboundedSnapshot is_alias_snap)
        , ("locatedAt", [located_at_snap])
        , ("hasLabel", [s1.has_label_labels]) ] })

/-- Explicit state-passing run of `as_nml` on a `BidirectionalPort`. -/
def BidirectionalPort.as_nml_run (s : BidirectionalPortState) :
    BidirectionalPortState × XElem :=
  let (c1, exists_during_snap) := NetworkObject.get_exists_during s.core
  let (c2, is_alias_snap) := NetworkObject.get_is_alias c1
  let (c3, located_at_snap) := NetworkObject.get_located_at c2
  let s1 : BidirectionalPortState := { s with core := c3 }
  (s1, asNmlView
    { className := "BidirectionalPort"
    , attributes := coreAttributes s1.core
    , relations :=
        [ ("existsDuring", unboundedSnapshot exists_during_snap)
        , ("isAlias", unboundedSnapshot is_alias_snap)
        , ("locatedAt", [located_at_snap])
        , ("hasPort", [s1.has_port_ports.1, s1.has_port_ports.2]) ] })

/-- Explicit state-passing run of `as_nml` on a `BidirectionalLink`. -/
def BidirectionalLink.as_nml_run (s : BidirectionalLinkState) :
    BidirectionalLinkState × XElem :=
  let (c1, exists_during_snap) := NetworkObject.get_exists_during s.core
  let (c2, is_alias_snap) := NetworkObject.get_is_alias c1
  let (c3, located_at_snap) := NetworkObject.get_located_at c2
  let s1 : BidirectionalLinkState := { s with core := c3 }
  (s1, asNmlView
    { className := "BidirectionalLink"
    , attributes := coreAttributes s1.core
    , relations :=
        [ ("existsDuring", unboundedSnapshot exists_during_snap)
        , ("isAlias", unboundedSnapshot is_alias_snap)
        , ("locatedAt", [located_at_snap])
        , ("hasLink", [s1.has_link_links.1, s1.has_link_links.2]) ] })

/-- A registrable object of the namespace, as `manager.py` uses them. -/
inductive NSObject
  | node (s : NodeState)
  | port (s : PortState)
  | link (s : LinkState)
  | biport (s : BidirectionalPortState)
  | bilink (s : BidirectionalLinkState)
  deriving DecidableEq, Repr

/-- `obj.identifier` of a registrable object. -/
def NSObject.identifier : NSObject → AttrValue
  | .node s => s.core.identifier
  | .port s => s.core.identifier
  | .link s => s.core.identifier
  | .biport s => s.core.identifier
  | .bilink s => s.core.identifier

/-- `obj.as_nml()` of a registrable object. -/
def NSObject.as_nml : NSObject → XElem
  | .node s => Node.as_nml s
  | .port s => Port.as_nml s
  | .link s => Link.as_nml s
  | .biport s => BidirectionalPort.as_nml s
  | .bilink s => BidirectionalLink.as_nml s

/-- State-passing `obj.as_nml()` of a registrable object. -/
def NSObject.as_nml_run : NSObject → NSObject × XElem
  | .node s => let (s2, x) := Node.as_nml_run s; (.node s2, x)
  | .port s => let (s2, x) := Port.as_nml_run s; (.port s2, x)
  | .link s => let (s2, x) := Link.as_nml_run s; (.link s2, x)
  | .biport s => let (s2, x) := BidirectionalPort.as_nml_run s; (.biport s2, x)
  | .bilink s => let (s2, x) := BidirectionalLink.as_nml_run s; (.bilink s2, x)

/-- State of an `NMLManager` (`manager.py`): the namespace name and the
`OrderedDict` of registered objects keyed by identifier. -/
structure NMLManagerState where
  name : String
  nsObjects : List (AttrValue × NSObject)
  deriving DecidableEq, Repr

/-- `NMLManager.register_object`: `if obj.identifier in self.namespace:
raise Exception('Object already in namespace {id}')`, otherwise
`self.namespace[obj.identifier] = obj`. -/
def NMLManager.register_object (m : NMLManagerState) (obj : NSObject) :
    NMLManagerState × Option NMLError :=
  if odContains m.nsObjects obj.identifier then
    (m, some (.exceptionMsg
      ("Object already in namespace " ++ obj.identifier.text)))
  else
    ({ m with nsObjects := odSet m.nsObjects obj.identifier obj }, none)

/-- `NMLManager.get_object`: `self.namespace.get(identifier, None)`. -/
def NMLManager.get_object (m : NMLManagerState) (identifier : AttrValue) :
    Option NSObject :=
  (m.nsObjects.find? (fun p => decide (p.1 = identifier))).map Prod.snd

/-- One iteration of the export loop `for obj_id, obj in
self.namespace.items(): obj.as_nml(parent=root)`: runs `as_nml` on the
object, keeps the (possibly updated) object in the namespace and appends the
produced element to the root's children. -/
def exportStep (acc : List (AttrValue × NSObject) × List XElem)
    (p : AttrValue × NSObject) :
    List (AttrValue × NSObject) × List XElem :=
  let (o2, x) := p.2.as_nml_run
  (acc.1 ++ [(p.1, o2)], acc.2 ++ [x])

/-- `NMLManager.export_nml` (the tree-building part, before the string
encoding): creates the `Namespace` root with the `xmlns:nml` attribute and
serializes every registered object under it, in registration order.  The
returned manager state records what the walk did to the namespace. -/
def NMLManager.export_nml_run (m : NMLManagerState) :
    NMLManagerState × XElem :=
  let (d2, xs) := m.nsObjects.foldl exportStep ([], [])
  ({ m with nsObjects := d2 },
   .elem "Namespace" [("xmlns:nml", nmlNamespaceUri)] xs)

/-- Claim C1 (code-bug evidence): `as_nml` writes every non-unset attribute
under its internal name (`this.attrib[attr_name] = attr`), so a `Node`
serializes with the attribute key `identifier` — not the documented external
name `id` claimed by the specification (and recorded in the repository's own
`NML_SPEC` table as `nml_attribute: 'id'`). -/
theorem c1_serializer_uses_internal_attribute_names :
    (Node.as_nml (Node.fresh "My Switch 1" "urn:ogf:network:sw1"
        "2016-01-01T00:00:00")).attrib
      = [ ("name", "My Switch 1")
        , ("identifier", "urn:ogf:network:sw1")
        , ("version", "2016-01-01T00:00:00") ] := rfl

/-- A `Lifetime` related to the counterexample node below. -/
def c2LifetimeRef : Ref :=
  { oid := 11, kind := .lifetime, identifier := "urn:lt1" }

/-- A `Port` related to the counterexample node below. -/
def c2PortRef : Ref :=
  { oid := 12, kind := .port, identifier := "urn:p1" }

/-- A `Node` with one `existsDuring` lifetime (inherited relation) and one
`hasInboundPort` port (own relation), built through the embedded
operations. -/
def c2Node : NodeState :=
  let s0 := Node.fresh "n1" "urn:n1" "v1"
  let s1 : NodeState :=
    { s0 with core := (NetworkObject.add_exists_during s0.core c2LifetimeRef).1 }
  (Node.add_has_inbound_port s1 c2PortRef).1

/-- Claim C2 counterexample: on `c2Node` the serializer emits the inherited
`existsDuring` Relation element BEFORE the Node-specific `hasInboundPort`
one, so the claimed order (most-derived relations first, inherited appended
after) is false. -/
theorem c2_counterexample :
    (Node.as_nml c2Node).children.map XElem.typeAttr
      = [ some (nmlNamespaceUri ++ "#existsDuring")
        , some (nmlNamespaceUri ++ "#hasInboundPort") ]
    ∧ ¬ ((Node.as_nml c2Node).children.map XElem.typeAttr
      = [ some (nmlNamespaceUri ++ "#hasInboundPort")
        , some (nmlNamespaceUri ++ "#existsDuring") ]) := by
  refine ⟨rfl, by decide⟩

/-- Claim C2 amended: `Node.__init__` calls `super().__init__` first, so the
serializer emits the inherited base relations (`existsDuring`, `isAlias`,
`locatedAt`) FIRST and the most-derived kind's own relations appended after
them. -/
theorem c2_amended_base_relations_first (s : NodeState) :
    (Node.as_nml s).children
      = emitRelations (coreRelations s.core)
        ++ emitRelations (Node.ownRelations s) := by
  simp [Node.as_nml, asNmlView, Node.view, emitRelations, XElem.children,
    List.filterMap_append]

/-- The core state of a `Node` used as `self` below. -/
def c4NodeSelf : NetworkObjectCore := (Node.fresh "sw1" "urn:sw1" "v1").core

/-- A candidate of the same concrete kind (`Node`) as `c4NodeSelf`. -/
def c4NodeCandidate : Ref :=
  { oid := 21, kind := .node, identifier := "urn:sw2" }

/-- Claim C4 (code-bug evidence): `add_is_alias` checks the candidate's class
against the tuple `(NetworkObject, )` — the abstract base class, which no
instance has as its exact class — so even a candidate of the same concrete
kind as `self` (here `Node` on `Node`) raises `RelationIsAliasError` and the
relation storage is left unchanged. -/
theorem c4_is_alias_rejects_same_kind :
    NetworkObject.add_is_alias c4NodeSelf c4NodeCandidate
      = (c4NodeSelf, some NMLError.relationIsAliasError) := rfl

/-- A stand-in URI validator accepting the two URIs used in the
counterexample (the embedding takes `rfc3986.is_valid_uri` as a
parameter). -/
def c3UriAccepting : String → Bool :=
  fun u => u == "urn:a" || u == "urn:b"

/-- A `NetworkObject` core whose identifier `urn:a` was accepted at
construction (the validator returns `true` on it). -/
def c3Core : NetworkObjectCore := NetworkObjectCore.fresh "n1" "urn:a" "v1"

/-- Claim C3 counterexample: the identifier of `c3Core` was accepted, yet the
public `identifier` setter afterwards replaces it with another accepted URI
without any error — identifiers are not immutable once accepted. -/
theorem c3_counterexample :
    c3UriAccepting "urn:a" = true
    ∧ NetworkObject.set_identifier c3UriAccepting c3Core (AttrValue.val "urn:b")
        = ({ c3Core with identifier := AttrValue.val "urn:b" }, none)
    ∧ ({ c3Core with identifier := AttrValue.val "urn:b" }).identifier
        ≠ c3Core.identifier := by
  refine ⟨rfl, rfl, by decide⟩

/-- Claim C3 amended: an accepted identifier is not immutable.  The public
`identifier` setter replaces it with any validator-accepted URI, or clears
it with the `unset` sentinel; only an invalid non-unset value is rejected
with `AttributeIdError`, leaving the prior identifier unchanged. -/
theorem c3_amended_identifier_mutable (is_valid_uri : String → Bool)
    (s : NetworkObjectCore) (u w : String)
    (hu : is_valid_uri u = true) (hw : is_valid_uri w = false) :
    NetworkObject.set_identifier is_valid_uri s (AttrValue.val u)
        = ({ s with identifier := AttrValue.val u }, none)
    ∧ NetworkObject.set_identifier is_valid_uri s AttrValue.unset
        = ({ s with identifier := AttrValue.unset }, none)
    ∧ NetworkObject.set_identifier is_valid_uri s (AttrValue.val w)
        = (s, some NMLError.attributeIdError) := by
  refine ⟨?_, rfl, ?_⟩ <;>
    simp [NetworkObject.set_identifier, hu, hw]

/-- Witness for `c3_amended_identifier_mutable` at a concrete validator,
state and values. -/
theorem c3_amended_identifier_mutable_witness :
    c3UriAccepting "urn:b" = true
    ∧ c3UriAccepting "no uri" = false
    ∧ (NetworkObject.set_identifier c3UriAccepting c3Core (AttrValue.val "urn:b")
        = ({ c3Core with identifier := AttrValue.val "urn:b" }, none)
      ∧ NetworkObject.set_identifier c3UriAccepting c3Core AttrValue.unset
        = ({ c3Core with identifier := AttrValue.unset }, none)
      ∧ NetworkObject.set_identifier c3UriAccepting c3Core (AttrValue.val "no uri")
        = (c3Core, some NMLError.attributeIdError)) :=
  ⟨rfl, rfl,
   c3_amended_identifier_mutable c3UriAccepting c3Core "urn:b" "no uri" rfl rfl⟩

/-- Claim C5: calling the fixed-2 setter of a `BidirectionalPort` (and of a
`BidirectionalLink`) with two non-distinct targets — same Python object,
i.e. equal object identity — fails with the distinctness error
(`Exception('Non unique objects')`, the code's cardinality failure) and
returns the state unchanged: the slot keeps its prior value and is never
half-filled. -/
theorem c5_fixed2_non_distinct_atomic
    (s : BidirectionalPortState) (t : BidirectionalLinkState)
    (p q l m : Ref)
    (hp : p.kind ∈ [Kind.port, Kind.portGroup])
    (hq : q.kind ∈ [Kind.port, Kind.portGroup])
    (hpq : p.oid = q.oid)
    (hl : l.kind ∈ [Kind.link, Kind.linkGroup])
    (hm : m.kind ∈ [Kind.link, Kind.linkGroup])
    (hlm : l.oid = m.oid) :
    BidirectionalPort.set_has_port s p q
        = (s, some (NMLError.exceptionMsg "Non unique objects"))
    ∧ BidirectionalLink.set_has_link t l m
        = (t, some (NMLError.exceptionMsg "Non unique objects")) := by
  constructor
  · simp [BidirectionalPort.set_has_port, hp, hq, hpq]
  · simp [BidirectionalLink.set_has_link, hl, hm, hlm]

/-- The port passed twice in the witness below. -/
def c5PortRef : Ref := { oid := 31, kind := .port, identifier := "urn:p31" }

/-- The link passed twice in the witness below. -/
def c5LinkRef : Ref := { oid := 32, kind := .link, identifier := "urn:l32" }

/-- Witness for `c5_fixed2_non_distinct_atomic`: `set_has_port(portA, portA)`
on a never-set `BidirectionalPort` (and the analogous `set_has_link`) at
concrete inputs. -/
theorem c5_fixed2_non_distinct_atomic_witness :
    c5PortRef.kind ∈ [Kind.port, Kind.portGroup]
    ∧ c5LinkRef.kind ∈ [Kind.link, Kind.linkGroup]
    ∧ (BidirectionalPort.set_has_port
          (BidirectionalPort.fresh "bp" "urn:bp" "v") c5PortRef c5PortRef
        = (BidirectionalPort.fresh "bp" "urn:bp" "v",
           some (NMLError.exceptionMsg "Non unique objects"))
      ∧ BidirectionalLink.set_has_link
          (BidirectionalLink.fresh "bl" "urn:bl" "v") c5LinkRef c5LinkRef
        = (BidirectionalLink.fresh "bl" "urn:bl" "v",
           some (NMLError.exceptionMsg "Non unique objects"))) :=
  ⟨by decide, by decide,
   c5_fixed2_non_distinct_atomic _ _ _ _ _ _
     (by decide) (by decide) rfl (by decide) (by decide) rfl⟩

/-- Claim C6: two successive adds of the same identifier to an unbounded
relation (`Node.hasInboundPort`): if the identifier is not yet present, the
first add appends the entry at the end, and the second add replaces its
value in that same position — no duplication, no reordering, exactly one
entry for that identifier. -/
theorem c6_unbounded_add_idempotent (s : NodeState) (a b : Ref)
    (ha : a.kind ∈ [Kind.port, Kind.portGroup])
    (hb : b.kind ∈ [Kind.port, Kind.portGroup])
    (hk : b.identifier = a.identifier)
    (hfresh : odContains s.has_inbound_port_ports a.identifier = false) :
    (Node.add_has_inbound_port s a).2 = none
    ∧ (Node.add_has_inbound_port s a).1.has_inbound_port_ports
        = s.has_inbound_port_ports ++ [(a.identifier, a)]
    ∧ (Node.add_has_inbound_port (Node.add_has_inbound_port s a).1 b).2 = none
    ∧ (Node.add_has_inbound_port
          (Node.add_has_inbound_port s a).1 b).1.has_inbound_port_ports
        = s.has_inbound_port_ports ++ [(a.identifier, b)] := by
  have hna : ¬ a.kind ∉ [Kind.port, Kind.portGroup] := by simp [ha]
  have hnb : ¬ b.kind ∉ [Kind.port, Kind.portGroup] := by simp [hb]
  simp only [Node.add_has_inbound_port, if_neg hna, if_neg hnb]
  refine ⟨trivial, ?_, trivial, ?_⟩
  · exact odSet_of_fresh _ _ _ hfresh
  · rw [odSet_of_fresh _ _ _ hfresh, hk, odSet_append_replace _ _ _ _ hfresh]

/-- First port added in the witness below. -/
def c6PortFirst : Ref := { oid := 41, kind := .port, identifier := "urn:p41" }

/-- Second port added in the witness below: a different object carrying the
same identifier. -/
def c6PortSecond : Ref := { oid := 42, kind := .port, identifier := "urn:p41" }

/-- Witness for `c6_unbounded_add_idempotent` at concrete inputs. -/
theorem c6_unbounded_add_idempotent_witness :
    c6PortFirst.kind ∈ [Kind.port, Kind.portGroup]
    ∧ c6PortSecond.identifier = c6PortFirst.identifier
    ∧ odContains (Node.fresh "n" "urn:n" "v").has_inbound_port_ports
        c6PortFirst.identifier = false
    ∧ ((Node.add_has_inbound_port (Node.fresh "n" "urn:n" "v") c6PortFirst).2
          = none
      ∧ (Node.add_has_inbound_port
            (Node.fresh "n" "urn:n" "v") c6PortFirst).1.has_inbound_port_ports
          = (Node.fresh "n" "urn:n" "v").has_inbound_port_ports
            ++ [(c6PortFirst.identifier, c6PortFirst)]
      ∧ (Node.add_has_inbound_port
          (Node.add_has_inbound_port
            (Node.fresh "n" "urn:n" "v") c6PortFirst).1 c6PortSecond).2 = none
      ∧ (Node.add_has_inbound_port
          (Node.add_has_inbound_port
            (Node.fresh "n" "urn:n" "v") c6PortFirst).1
          c6PortSecond).1.has_inbound_port_ports
          = (Node.fresh "n" "urn:n" "v").has_inbound_port_ports
            ++ [(c6PortFirst.identifier, c6PortSecond)]) :=
  ⟨by decide, rfl, rfl,
   c6_unbounded_add_idempotent (Node.fresh "n" "urn:n" "v")
     c6PortFirst c6PortSecond (by decide) (by decide) rfl rfl⟩

theorem filter_eq_nil_of_not_contains {κ ν : Type} [DecidableEq κ]
    (m : List (κ × ν)) (k : κ) (h : odContains m k = false) :
    m.filter (fun p => decide (p.1 = k)) = [] := by
  unfold odContains at h
  simp only [List.any_eq_false, decide_eq_true_eq] at h
  induction m with
  | nil => rfl
  | cons x xs ih =>
      have hx : ¬ x.1 = k := h x (by simp)
      simp only [List.filter_cons, decide_eq_true_eq]
      rw [if_neg hx]
      exact ih (fun a ha => h a (by simp [ha]))

/-- Claim C7: once an object is registered under an identifier not yet in
the namespace, any further `register_object` with that same identifier — the
same object or a different one — fails with the duplicate error raised by
`register_object` (`Exception('Object already in namespace ...')`) and the
namespace is unchanged: its ordered enumeration still contains exactly the
first-registered object under that identifier. -/
theorem c7_register_duplicate_fails (m : NMLManagerState) (a b : NSObject)
    (hid : b.identifier = a.identifier)
    (hfresh : odContains m.nsObjects a.identifier = false) :
    (NMLManager.register_object m a).2 = none
    ∧ (NMLManager.register_object m a).1.nsObjects
        = m.nsObjects ++ [(a.identifier, a)]
    ∧ NMLManager.register_object (NMLManager.register_object m a).1 b
        = ((NMLManager.register_object m a).1,
           some (NMLError.exceptionMsg
             ("Object already in namespace " ++ b.identifier.text)))
    ∧ ((NMLManager.register_object m a).1.nsObjects.filter
          (fun p => decide (p.1 = a.identifier))).map Prod.snd = [a] := by
  have hreg : NMLManager.register_object m a
      = ({ m with nsObjects := m.nsObjects ++ [(a.identifier, a)] }, none) := by
    unfold NMLManager.register_object
    rw [if_neg (by simp [hfresh]), odSet_of_fresh _ _ _ hfresh]
  refine ⟨by rw [hreg], by rw [hreg], ?_, ?_⟩
  · simp only [hreg]
    unfold NMLManager.register_object
    rw [if_pos (by rw [hid]; exact odContains_append_self m.nsObjects _ a)]
  · rw [hreg]
    simp only [List.filter_append, List.map_append,
      filter_eq_nil_of_not_contains m.nsObjects a.identifier hfresh]
    simp

/-- First object registered in the witness below. -/
def c7NodeObject : NSObject := .node (Node.fresh "n1" "urn:x" "v1")

/-- Second, distinct object sharing the identifier of `c7NodeObject`. -/
def c7PortObject : NSObject := .port (Port.fresh "p1" "urn:x" "v1")

/-- The empty manager of the witness below (`NMLManager()`). -/
def c7Manager : NMLManagerState := { name := "NML Namespace", nsObjects := [] }

/-- Witness for `c7_register_duplicate_fails` at concrete inputs. -/
theorem c7_register_duplicate_fails_witness :
    c7PortObject.identifier = c7NodeObject.identifier
    ∧ odContains c7Manager.nsObjects c7NodeObject.identifier = false
    ∧ ((NMLManager.register_object c7Manager c7NodeObject).2 = none
      ∧ (NMLManager.register_object c7Manager c7NodeObject).1.nsObjects
          = c7Manager.nsObjects ++ [(c7NodeObject.identifier, c7NodeObject)]
      ∧ NMLManager.register_object
          (NMLManager.register_object c7Manager c7NodeObject).1 c7PortObject
          = ((NMLManager.register_object c7Manager c7NodeObject).1,
             some (NMLError.exceptionMsg
               ("Object already in namespace "
                 ++ c7PortObject.identifier.text)))
      ∧ ((NMLManager.register_object c7Manager c7NodeObject).1.nsObjects.filter
            (fun p => decide (p.1 = c7NodeObject.identifier))).map Prod.snd
          = [c7NodeObject]) :=
  ⟨rfl, rfl,
   c7_register_duplicate_fails c7Manager c7NodeObject c7PortObject rfl rfl⟩

/-- Claim C8: validated attribute setters (`name`, `identifier`,
`Port.encoding`).  Setting the `unset` sentinel stores it unconditionally;
setting an invalid non-unset value (empty name, validator-rejected URI)
raises that attribute's validation error and leaves the whole state —
including a previously `unset` value — unchanged; setting a valid value
stores it. -/
theorem c8_attribute_set_atomic (is_valid_uri : String → Bool)
    (c : NetworkObjectCore) (p : PortState) (u w n : String)
    (hu : is_valid_uri u = true) (hw : is_valid_uri w = false)
    (hn : ¬ n = "") :
    NetworkObject.set_name c AttrValue.unset
        = ({ c with name := AttrValue.unset }, none)
    ∧ NetworkObject.set_identifier is_valid_uri c AttrValue.unset
        = ({ c with identifier := AttrValue.unset }, none)
    ∧ Port.set_encoding is_valid_uri p AttrValue.unset
        = ({ p with encoding := AttrValue.unset }, none)
    ∧ NetworkObject.set_name c (AttrValue.val "")
        = (c, some NMLError.attributeNameError)
    ∧ NetworkObject.set_identifier is_valid_uri c (AttrValue.val w)
        = (c, some NMLError.attributeIdError)
    ∧ Port.set_encoding is_valid_uri p (AttrValue.val w)
        = (p, some NMLError.attributeEncodingError)
    ∧ NetworkObject.set_name c (AttrValue.val n)
        = ({ c with name := AttrValue.val n }, none)
    ∧ NetworkObject.set_identifier is_valid_uri c (AttrValue.val u)
        = ({ c with identifier := AttrValue.val u }, none)
    ∧ Port.set_encoding is_valid_uri p (AttrValue.val u)
        = ({ p with encoding := AttrValue.val u }, none) := by
  refine ⟨rfl, rfl, rfl, rfl, ?_, ?_, ?_, ?_, ?_⟩ <;>
    simp [NetworkObject.set_name, NetworkObject.set_identifier,
      Port.set_encoding, hu, hw, hn]

/-- The validator used by the witness below. -/
def c8UriAccepting : String → Bool := fun u => u == "urn:ok"

/-- The entity states used by the witness below: the name and encoding start
unset / set, exercising that an invalid set leaves even an `unset` prior
value unchanged. -/
def c8Core : NetworkObjectCore :=
  { NetworkObjectCore.fresh "n1" "urn:ok" "v1" with name := AttrValue.unset }

/-- The Port state used by the witness below (fresh, `encoding` unset). -/
def c8Port : PortState := Port.fresh "p1" "urn:ok" "v1"

/-- Witness for `c8_attribute_set_atomic` at concrete inputs. -/
theorem c8_attribute_set_atomic_witness :
    c8UriAccepting "urn:ok" = true
    ∧ c8UriAccepting "not a uri" = false
    ∧ ¬ "sw1" = ""
    ∧ (NetworkObject.set_name c8Core AttrValue.unset
        = ({ c8Core with name := AttrValue.unset }, none)
      ∧ NetworkObject.set_identifier c8UriAccepting c8Core AttrValue.unset
        = ({ c8Core with identifier := AttrValue.unset }, none)
      ∧ Port.set_encoding c8UriAccepting c8Port AttrValue.unset
        = ({ c8Port with encoding := AttrValue.unset }, none)
      ∧ NetworkObject.set_name c8Core (AttrValue.val "")
        = (c8Core, some NMLError.attributeNameError)
      ∧ NetworkObject.set_identifier c8UriAccepting c8Core
          (AttrValue.val "not a uri")
        = (c8Core, some NMLError.attributeIdError)
      ∧ Port.set_encoding c8UriAccepting c8Port (AttrValue.val "not a uri")
        = (c8Port, some NMLError.attributeEncodingError)
      ∧ NetworkObject.set_name c8Core (AttrValue.val "sw1")
        = ({ c8Core with name := AttrValue.val "sw1" }, none)
      ∧ NetworkObject.set_identifier c8UriAccepting c8Core
          (AttrValue.val "urn:ok")
        = ({ c8Core with identifier := AttrValue.val "urn:ok" }, none)
      ∧ Port.set_encoding c8UriAccepting c8Port (AttrValue.val "urn:ok")
        = ({ c8Port with encoding := AttrValue.val "urn:ok" }, none)) :=
  ⟨rfl, rfl, by decide,
   c8_attribute_set_atomic c8UriAccepting c8Core c8Port
     "urn:ok" "not a uri" "sw1" rfl rfl (by decide)⟩

/-- Claim C9: an entity with every optional attribute left `unset` and no
relation ever populated serializes to an element carrying only the mandatory
identity attributes and no `Relation` child at all — empty unbounded
relations and never-set singleton / fixed-2 slots (`(None, )`,
`(None, None, )`) are all skipped.  Shown for a fresh `Node`, a fresh `Port`
(whose optional `encoding` is unset) and a fresh `BidirectionalPort`. -/
theorem c9_unset_omission (n1 i1 v1 n2 i2 v2 n3 i3 v3 : String) :
    Node.as_nml (Node.fresh n1 i1 v1)
      = XElem.elem "nml:Node"
          [("name", n1), ("identifier", i1), ("version", v1)] []
    ∧ Port.as_nml (Port.fresh n2 i2 v2)
      = XElem.elem "nml:Port"
          [("name", n2), ("identifier", i2), ("version", v2)] []
    ∧ BidirectionalPort.as_nml (BidirectionalPort.fresh n3 i3 v3)
      = XElem.elem "nml:BidirectionalPort"
          [("name", n3), ("identifier", i3), ("version", v3)] [] :=
  ⟨rfl, rfl, rfl⟩

theorem NSObject.as_nml_run_fst (o : NSObject) : o.as_nml_run.1 = o := by
  cases o <;> rfl

theorem exportStep_foldl_fst (l : List (AttrValue × NSObject))
    (d : List (AttrValue × NSObject)) (xs : List XElem) :
    (l.foldl exportStep (d, xs)).1 = d ++ l := by
  induction l generalizing d xs with
  | nil => simp
  | cons p l ih =>
      simp only [List.foldl_cons, exportStep, NSObject.as_nml_run_fst, ih]
      simp

/-- Claim C10: serialization is read-only.  Running `as_nml` on a `Node`,
`Port` or `BidirectionalPort` — with every read threaded through the state —
returns the state exactly as it was, and `NMLManager.export_nml`, which
serializes every registered object in registration order, returns the
manager (namespace included, every object's state included) unchanged. -/
theorem c10_serialization_read_only (s : NodeState) (p : PortState)
    (b : BidirectionalPortState) (m : NMLManagerState) :
    (Node.as_nml_run s).1 = s
    ∧ (Port.as_nml_run p).1 = p
    ∧ (BidirectionalPort.as_nml_run b).1 = b
    ∧ (NMLManager.export_nml_run m).1 = m := by
  refine ⟨rfl, rfl, rfl, ?_⟩
  unfold NMLManager.export_nml_run
  simp [exportStep_foldl_fst]
